import Mathlib

/-!
# Verification of the LinkedIn OAuth2/PKCE token-broker backend (`main.py`)

Shallow embedding of the FastAPI application in `main.py`:

* MongoDB collections (`users`, `pkce_states`) are modelled as lists of
  documents; `insert_one` appends a document with a caller-supplied fresh
  `_id`, `find_one` returns the first matching document, `delete_one` /
  `update_one` act on the first matching document.
* `datetime.utcnow()` is an explicit `now : Nat` parameter (seconds);
  `timedelta(minutes := 10)` is `600`, `timedelta(seconds := e)` is `e`.
* Outbound HTTP requests (`requests.post` / `requests.get`) are modelled by
  passing the downstream response as data and recording each performed call
  in an `ExtCall` trace, so "no downstream call happened" is observable.
* Python truthiness on optional strings (`if not code:`) is the `truthy`
  predicate: `None` and `""` are falsy.
* A FastAPI `HTTPException` is the `.http status detail` error; an uncaught
  Python exception propagating out of a handler is `.uncaught`.
-/

namespace LinkedinBackend

/-- Python truthiness of an optional string: `None` and `""` are falsy. -/
def truthy : Option String → Bool
  | none => false
  | some s => s ≠ ""

/-- Python f-string rendering of an optional string: `None` prints as "None". -/
def pyStr : Option String → String
  | none => "None"
  | some s => s

/-- Outcome of a handler: an `HTTPException(status_code, detail)` raised by the
code, or a non-`HTTPException` exception escaping the handler. -/
inductive HandlerError
  | http (status_code : Nat) (detail : String)
  | uncaught (msg : String)
deriving DecidableEq

/-! ## Secret codec (Fernet)

Modelled from the spec: the `cryptography.fernet.Fernet` implementation is an
external library, not part of this repository's source. Per §4.1 the codec is
symmetric encryption keyed by a process-wide secret; decryption under a
non-matching key fails (`DecryptionError`) instead of returning a wrong
plaintext. A ciphertext is modelled as the pair of the encrypting key and the
plaintext. -/

/-- Error raised by the codec when the key does not match or the ciphertext is
malformed (the library raises `InvalidToken`; the spec calls it
`DecryptionError`). -/
inductive FernetError
  | invalidToken
deriving DecidableEq

/-- Modelled from the spec: abstract ciphertext produced by the symmetric
codec — the encrypting key together with the protected plaintext. -/
structure Cipher where
  key : String
  plain : String
deriving DecidableEq

/-- Modelled from the spec: the process-wide symmetric codec
(`fernet = Fernet(FERNET_KEY)`). -/
structure Fernet where
  key : String
deriving DecidableEq

/-- Modelled from the spec: `fernet.encrypt` — ciphertext bound to the key. -/
def Fernet.encrypt (f : Fernet) (plaintext : String) : Cipher :=
  ⟨f.key, plaintext⟩

/-- Modelled from the spec: `fernet.decrypt` — recovers the plaintext when the
key matches, fails with `InvalidToken` otherwise. -/
def Fernet.decrypt (f : Fernet) (c : Cipher) : Except FernetError String :=
  if c.key = f.key then .ok c.plain else .error .invalidToken

/-! ## Data model: the `users` and `pkce_states` collections -/

/-- A post history entry pushed by `create_linkedin_post`
(`{"post_id": ..., "text": ..., "posted_at": ...}`). -/
structure PostRec where
  post_id : String
  text : String
  posted_at : Nat
deriving DecidableEq

/-- A document of the `users` collection, with the fields `main.py` reads:
`_id`, `linkedin.user_id`, `linkedin.urn`, `auth.access_token`,
`auth.expires_at`, `drafts`, `posts`, `created_at`, `updated_at`.
Missing nested keys (`user.get("auth", \x7b\x7d).get(...)`) are `none`. -/
structure UserDoc where
  oid : Nat
  linkedin_user_id : Option String
  linkedin_urn : Option String
  auth_access_token : Option Cipher
  auth_expires_at : Option Nat
  drafts : List String
  posts : List PostRec
  created_at : Option Nat
  updated_at : Option Nat
deriving DecidableEq

/-- A document of the `pkce_states` collection, as inserted by
`store_pkce_state`. -/
structure PkceRecord where
  oid : Nat
  state : String
  code_verifier : String
  created_at : Nat
  expires_at : Nat
deriving DecidableEq

/-- Mongo `update_one`: apply `f` to the first document matching `p`. -/
def updateFirst (p : α → Bool) (f : α → α) : List α → List α
  | [] => []
  | x :: xs => if p x then f x :: xs else x :: updateFirst p f xs

/-- Mongo `delete_one` on `pkce_states` keyed by `_id`: remove the first
document with the given `_id`. -/
def deleteById (oid : Nat) (store : List PkceRecord) : List PkceRecord :=
  List.eraseP (fun r => r.oid == oid) store

/-- A downstream HTTP call performed by the backend, for observing side
effects ("no downstream call" = empty trace). -/
inductive ExtCall
  | tokenExchange (code verifier : String)
  | fetchProfile (access_token : String)
  | publish (author text access_token : String)
deriving DecidableEq

/-! ## Helpers: `is_token_expired`, `get_access_token` -/

/-- `is_token_expired(user)`: true when `auth.expires_at` is missing or
`datetime.utcnow() >= expires_at` (`main.py` lines 40–44). -/
def is_token_expired (now : Nat) (user : UserDoc) : Bool :=
  match user.auth_expires_at with
  | none => true
  | some expires_at => now ≥ expires_at

/-- `get_access_token(user)`: 401 when `auth.access_token` is missing,
otherwise `fernet.decrypt` (`main.py` lines 47–51). A decryption failure is an
uncaught `InvalidToken` exception. -/
def get_access_token (fern : Fernet) (user : UserDoc) : Except HandlerError String :=
  match user.auth_access_token with
  | none => .error (.http 401 "Missing access token")
  | some encrypted =>
    match fern.decrypt encrypted with
    | .ok token => .ok token
    | .error _ => .error (.uncaught "InvalidToken")

/-! ## `create_linkedin_post` -/

/-- The downstream response to the `ugcPosts` publish call:
`status_code`, `response.text`, and the parsed JSON body. -/
structure PublishResp where
  status_code : Nat
  text : String
  body_id : Option String
  body_rest : String
deriving DecidableEq

/-- Result and side effects of a publish attempt: the handler outcome (the
downstream JSON body is returned verbatim on success), the resulting `users`
collection, and the trace of downstream calls performed. -/
structure PublishOutcome where
  result : Except HandlerError PublishResp
  users : List UserDoc
  calls : List ExtCall

/-- `create_linkedin_post(user, text)` (`main.py` lines 54–111): token-expiry
guard, token decryption, URN truthiness check, downstream publish call,
error propagation for `status_code >= 400`, and `$push` of a post record when
the response JSON has a truthy `id`. -/
def create_linkedin_post (fern : Fernet) (now : Nat) (resp : PublishResp)
    (user : UserDoc) (text : String) (usersStore : List UserDoc) : PublishOutcome :=
  if is_token_expired now user then
    ⟨.error (.http 401 "LinkedIn token expired. User must re-authenticate."), usersStore, []⟩
  else
    match get_access_token fern user with
    | .error e => ⟨.error e, usersStore, []⟩
    | .ok access_token =>
      if truthy user.linkedin_urn = false then
        ⟨.error (.http 400 "Missing LinkedIn URN"), usersStore, []⟩
      else
        let author_urn := user.linkedin_urn.getD ""
        let calls := [ExtCall.publish author_urn text access_token]
        if resp.status_code ≥ 400 then
          ⟨.error (.http resp.status_code resp.text), usersStore, calls⟩
        else
          if truthy resp.body_id then
            ⟨.ok resp,
             updateFirst (fun d => d.oid == user.oid)
               (fun d => { d with posts := d.posts ++ [⟨resp.body_id.getD "", text, now⟩] })
               usersStore,
             calls⟩
          else
            ⟨.ok resp, usersStore, calls⟩

/-- `POST /post` (`manual_post`, `main.py` lines 137–143): resolve the user by
`linkedin.user_id`, 404 when absent, then `create_linkedin_post`. -/
def manual_post (fern : Fernet) (now : Nat) (resp : PublishResp)
    (user_id text : String) (usersStore : List UserDoc) : PublishOutcome :=
  match usersStore.find? (fun d => d.linkedin_user_id == some user_id) with
  | none => ⟨.error (.http 404 "User not found"), usersStore, []⟩
  | some user => create_linkedin_post fern now resp user text usersStore

/-! ## `store_pkce_state` -/

/-- `POST /pkce/store` (`main.py` lines 123–132): insert a correlation entry
with `expires_at = now + 10 minutes`. `freshOid` is the `_id` Mongo assigns. -/
def store_pkce_state (now freshOid : Nat) (state code_verifier : String)
    (store : List PkceRecord) : List PkceRecord :=
  store ++ [⟨freshOid, state, code_verifier, now, now + 600⟩]

/-! ## `GET /callback` (`linkedin_callback`) -/

/-- The query parameters of a callback request
(`request.query_params.get(...)`, absent keys are `none`). -/
structure CallbackParams where
  code : Option String
  state : Option String
  error : Option String
  error_description : Option String
deriving DecidableEq

/-- The downstream responses the callback may consume: the token-endpoint
response (with `access_token` / `expires_in` of its JSON body, read only when
`status == 200`) and the userinfo response (with its `sub`). -/
structure CallbackEnv where
  tokenStatus : Nat
  tokenText : String
  tokenAccessToken : String
  tokenExpiresIn : Nat
  profileStatus : Nat
  profileText : String
  profileSub : String
deriving DecidableEq

/-- The success payload of the callback
(`linkedin_user_id`, `linkedin_urn`, `expires_in`). -/
structure CallbackResp where
  linkedin_user_id : String
  linkedin_urn : String
  expires_in : Nat
deriving DecidableEq

/-- Result and side effects of one callback invocation: handler outcome, the
two collections after the call, and the downstream calls performed. -/
structure CallbackOutcome where
  result : Except HandlerError CallbackResp
  pkce : List PkceRecord
  users : List UserDoc
  calls : List ExtCall

/-- Outcome of the PKCE consume phase of the callback
(`main.py` lines 176–196). -/
inductive ConsumeOutcome
  | notFound
  | expired
  | ok (code_verifier : String)
deriving DecidableEq

/-- The PKCE consume phase of `linkedin_callback`: `find_one` by `state`,
the expiry check `utcnow() > expires_at` (deleting the expired entry), and
the `delete_one` of the consumed entry — two separate store operations, not
one atomic find-and-delete. -/
def pkceConsume (now : Nat) (state : String) (store : List PkceRecord) :
    ConsumeOutcome × List PkceRecord :=
  match store.find? (fun r => r.state == state) with
  | none => (.notFound, store)
  | some pkce_record =>
    if now > pkce_record.expires_at then
      (.expired, deleteById pkce_record.oid store)
    else
      (.ok pkce_record.code_verifier, deleteById pkce_record.oid store)

/-- The `users.update_one(..., upsert=True)` of the callback: `$set` of the
`linkedin` and `auth` subdocuments and `updated_at` on the first document with
`linkedin.user_id == sub`, or insert of a fresh document whose `$setOnInsert`
initializes empty `drafts`/`posts` and `created_at`. -/
def upsertUser (now freshOid : Nat) (sub urn : String) (encrypted_token : Cipher)
    (token_expires_at : Nat) (usersStore : List UserDoc) : List UserDoc :=
  if (usersStore.find? (fun d => d.linkedin_user_id == some sub)).isSome then
    updateFirst (fun d => d.linkedin_user_id == some sub)
      (fun d => { d with
        linkedin_user_id := some sub
        linkedin_urn := some urn
        auth_access_token := some encrypted_token
        auth_expires_at := some token_expires_at
        updated_at := some now })
      usersStore
  else
    usersStore ++ [⟨freshOid, some sub, some urn, some encrypted_token,
                   some token_expires_at, [], [], some now, some now⟩]

/-- `GET /callback` (`linkedin_callback`, `main.py` lines 148–284): OAuth
`error` check, `code`/`state` presence checks, PKCE consume, code-for-token
exchange, userinfo fetch, token encryption, and user upsert. `freshOid` is the
`_id` Mongo would assign on an upsert insert. -/
def linkedin_callback (fern : Fernet) (now : Nat) (env : CallbackEnv) (freshOid : Nat)
    (p : CallbackParams) (pkceStore : List PkceRecord) (usersStore : List UserDoc) :
    CallbackOutcome :=
  if truthy p.error then
    ⟨.error (.http 400 ("LinkedIn OAuth error: " ++ pyStr p.error ++ " - " ++
        pyStr p.error_description)),
     pkceStore, usersStore, []⟩
  else if truthy p.code = false then
    ⟨.error (.http 400 "Missing authorization code"), pkceStore, usersStore, []⟩
  else if truthy p.state = false then
    ⟨.error (.http 400 "Missing state parameter"), pkceStore, usersStore, []⟩
  else
    match pkceConsume now (p.state.getD "") pkceStore with
    | (.notFound, pkce1) =>
      ⟨.error (.http 400 "PKCE state not found or expired. Please start the OAuth flow again."),
       pkce1, usersStore, []⟩
    | (.expired, pkce1) =>
      ⟨.error (.http 400 "PKCE state expired. Please start the OAuth flow again."),
       pkce1, usersStore, []⟩
    | (.ok code_verifier, pkce1) =>
      let calls1 := [ExtCall.tokenExchange (p.code.getD "") code_verifier]
      if env.tokenStatus ≠ 200 then
        ⟨.error (.http 400 env.tokenText), pkce1, usersStore, calls1⟩
      else
        let access_token := env.tokenAccessToken
        let calls2 := calls1 ++ [ExtCall.fetchProfile access_token]
        if env.profileStatus ≠ 200 then
          ⟨.error (.http 400 "Failed to fetch LinkedIn profile"), pkce1, usersStore, calls2⟩
        else
          let linkedin_id := env.profileSub
          let linkedin_urn := "urn:li:person:" ++ linkedin_id
          let encrypted_token := fern.encrypt access_token
          let users1 := upsertUser now freshOid linkedin_id linkedin_urn encrypted_token
            (now + env.tokenExpiresIn) usersStore
          ⟨.ok ⟨linkedin_id, linkedin_urn, env.tokenExpiresIn⟩, pkce1, users1, calls2⟩

/-! ## Sequences of callback invocations (for replay reasoning) -/

/-- One callback invocation: its time, downstream environment, fresh `_id`,
and query parameters. -/
structure CbInvocation where
  now : Nat
  env : CallbackEnv
  freshOid : Nat
  params : CallbackParams

/-- Run a sequence of callback invocations, threading the two collections and
pairing every invocation with its outcome. -/
def runCallbacks (fern : Fernet) : List CbInvocation → List PkceRecord → List UserDoc →
    List (CbInvocation × CallbackOutcome)
  | [], _, _ => []
  | c :: cs, pkceStore, usersStore =>
    let out := linkedin_callback fern c.now c.env c.freshOid c.params pkceStore usersStore
    (c, out) :: runCallbacks fern cs out.pkce out.users

/-! ## Interleaved PKCE consumption (two racing callbacks)

The consume phase issues two separate store commands: a `find_one` and then a
`delete_one`. Interleaving semantics: each racing callback is a thread whose
atomic steps are exactly these store operations; a schedule says which thread
moves next. -/

/-- Progress of one racing consumer through the consume phase: before its
`find_one`, after its `find_one` (holding the fetched document), or finished
(holding the observed `code_verifier`, `none` for not-found/expired). -/
inductive ConsumePhase
  | ready
  | fetched (r : Option PkceRecord)
  | finished (res : Option String)
deriving DecidableEq

/-- One atomic step of a racing consumer against the shared `pkce_states`
collection: `ready` performs the `find_one`; `fetched` performs the expiry
check and `delete_one` exactly as in `linkedin_callback`. -/
def consumeStep (now : Nat) (state : String) :
    ConsumePhase → List PkceRecord → ConsumePhase × List PkceRecord
  | .ready, store => (.fetched (store.find? (fun r => r.state == state)), store)
  | .fetched none, store => (.finished none, store)
  | .fetched (some r), store =>
    if now > r.expires_at then (.finished none, deleteById r.oid store)
    else (.finished (some r.code_verifier), deleteById r.oid store)
  | .finished res, store => (.finished res, store)

/-- Shared state of two callback requests racing on the same `state`. -/
structure RaceState where
  store : List PkceRecord
  thread0 : ConsumePhase
  thread1 : ConsumePhase
deriving DecidableEq

/-- Run a schedule (`false` = thread 0 moves, `true` = thread 1 moves) of
atomic steps over the shared collection. -/
def runRace (now : Nat) (state : String) : List Bool → RaceState → RaceState
  | [], s => s
  | b :: rest, s =>
    if b then
      let (t1, store1) := consumeStep now state s.thread1 s.store
      runRace now state rest ⟨store1, s.thread0, t1⟩
    else
      let (t0, store1) := consumeStep now state s.thread0 s.store
      runRace now state rest ⟨store1, t0, s.thread1⟩

/-! ## Predicates used by the replay theorems -/

/-- The `pkce_states` collection holds some entry keyed by `S`. -/
def hasState (S : String) (store : List PkceRecord) : Bool :=
  store.any (fun r => r.state == S)

/-- A callback invocation that gets past the `error`/`code`/`state` parameter
checks and performs the PKCE lookup for state `S`: no truthy `error`
parameter, a truthy `code`, and `state` present with the (non-empty) value
`S`. -/
def reachesLookup (p : CallbackParams) (S : String) : Prop :=
  truthy p.error = false ∧ truthy p.code = true ∧ p.state = some S ∧ S ≠ ""

instance (p : CallbackParams) (S : String) : Decidable (reachesLookup p S) := by
  unfold reachesLookup; infer_instance

/-!
# Theorems
-/

/-- Faithfulness of the race model: a consumer that runs its two steps with no
interleaving computes exactly the sequential consume phase of the callback. -/
theorem consumeStep_seq (now : Nat) (state : String) (store : List PkceRecord) :
    (let (ph, st) := consumeStep now state .ready store
     consumeStep now state ph st) =
    ((match (pkceConsume now state store).1 with
      | .ok v => ConsumePhase.finished (some v)
      | _ => ConsumePhase.finished none),
     (pkceConsume now state store).2) := by
  simp only [consumeStep, pkceConsume]
  cases h : store.find? (fun r => r.state == state) with
  | none => simp
  | some r =>
    by_cases hexp : now > r.expires_at
    · simp [hexp]
    · simp [hexp]

/-- Truthiness of a present parameter value. -/
theorem truthy_some (s : String) : truthy (some s) = !(s == "") := by
  by_cases h : s = "" <;> simp [truthy, h]

/-- A LinkedIn member URN is never the empty string. -/
theorem urn_ne_empty (s : String) : ("urn:li:person:" ++ s) ≠ "" := by
  intro h
  have hlen := congrArg String.length h
  simp [String.length_append] at hlen
  exact (by decide : ¬ ("urn:li:person:".length = 0)) hlen.1

/-- C8: decrypting the encryption of any token string under the same key
yields the string back, and decrypting a value encrypted under a different
key fails with the decryption error instead of returning a wrong plaintext. -/
theorem c8_codec_roundtrip :
    (∀ k x : String, Fernet.decrypt ⟨k⟩ (Fernet.encrypt ⟨k⟩ x) = .ok x) ∧
    (∀ k k' x : String, k ≠ k' →
      Fernet.decrypt ⟨k'⟩ (Fernet.encrypt ⟨k⟩ x) = .error .invalidToken) := by
  constructor
  · intro k x
    simp [Fernet.encrypt, Fernet.decrypt]
  · intro k k' x h
    simp [Fernet.encrypt, Fernet.decrypt, h]

/-- Witness for C8 at the keys "a", "b" and the token "tok". -/
theorem c8_codec_roundtrip_witness :
    Fernet.decrypt ⟨"a"⟩ (Fernet.encrypt ⟨"a"⟩ "tok") = .ok "tok" ∧
    Fernet.decrypt ⟨"b"⟩ (Fernet.encrypt ⟨"a"⟩ "tok") = .error .invalidToken :=
  ⟨c8_codec_roundtrip.1 "a" "tok", c8_codec_roundtrip.2 "a" "b" "tok" (by decide)⟩

/-- C3: publishing with a credential whose `expires_at` is absent or
`≤ now` always fails with the 401 token-expired error, performs no downstream
call, and leaves the `users` collection unchanged. -/
theorem c3_token_gating (fern : Fernet) (now : Nat) (resp : PublishResp)
    (user : UserDoc) (text : String) (users : List UserDoc)
    (h : user.auth_expires_at = none ∨
         ∃ t, user.auth_expires_at = some t ∧ t ≤ now) :
    (create_linkedin_post fern now resp user text users).result =
      .error (.http 401 "LinkedIn token expired. User must re-authenticate.") ∧
    (create_linkedin_post fern now resp user text users).users = users ∧
    (create_linkedin_post fern now resp user text users).calls = [] := by
  have hexp : is_token_expired now user = true := by
    rcases h with h | ⟨t, ht, hle⟩
    · simp [is_token_expired, h]
    · simp [is_token_expired, ht]
      omega
  simp [create_linkedin_post, hexp]

/-- Witness for C3: an expired credential (`expires_at = 5`, `now = 10`). -/
theorem c3_token_gating_witness :
    (create_linkedin_post ⟨"k"⟩ 10 ⟨200, "", some "p", ""⟩
        ⟨1, some "u", some "urn:li:person:u", some ⟨"k", "tok"⟩, some 5,
         [], [], some 0, some 0⟩ "hello"
        [⟨1, some "u", some "urn:li:person:u", some ⟨"k", "tok"⟩, some 5,
          [], [], some 0, some 0⟩]).result =
      .error (.http 401 "LinkedIn token expired. User must re-authenticate.") :=
  (c3_token_gating ⟨"k"⟩ 10 ⟨200, "", some "p", ""⟩
    ⟨1, some "u", some "urn:li:person:u", some ⟨"k", "tok"⟩, some 5,
     [], [], some 0, some 0⟩ "hello"
    [⟨1, some "u", some "urn:li:person:u", some ⟨"k", "tok"⟩, some 5,
      [], [], some 0, some 0⟩]
    (Or.inr ⟨5, rfl, by decide⟩)).1

/-- C10: with an unexpired credential, a missing stored URN makes the publish
action fail 400 "Missing LinkedIn URN" before any downstream call and without
store mutation; a missing stored access token (credential record unexpired)
fails 401 "Missing access token" likewise. -/
theorem c10_missing_urn_or_token (fern : Fernet) (now : Nat) (resp : PublishResp)
    (user : UserDoc) (text : String) (users : List UserDoc) :
    ((∃ t, user.auth_expires_at = some t ∧ now < t) →
     (∃ c, user.auth_access_token = some c ∧ c.key = fern.key) →
     truthy user.linkedin_urn = false →
     (create_linkedin_post fern now resp user text users).result =
        .error (.http 400 "Missing LinkedIn URN") ∧
     (create_linkedin_post fern now resp user text users).users = users ∧
     (create_linkedin_post fern now resp user text users).calls = []) ∧
    ((∃ t, user.auth_expires_at = some t ∧ now < t) →
     user.auth_access_token = none →
     (create_linkedin_post fern now resp user text users).result =
        .error (.http 401 "Missing access token") ∧
     (create_linkedin_post fern now resp user text users).users = users ∧
     (create_linkedin_post fern now resp user text users).calls = []) := by
  constructor
  · rintro ⟨t, ht, hlt⟩ ⟨c, hc, hkey⟩ hurn
    have hexp : is_token_expired now user = false := by
      simp [is_token_expired, ht]
      omega
    simp [create_linkedin_post, hexp, get_access_token, hc, Fernet.decrypt, hkey, hurn]
  · rintro ⟨t, ht, hlt⟩ hc
    have hexp : is_token_expired now user = false := by
      simp [is_token_expired, ht]
      omega
    simp [create_linkedin_post, hexp, get_access_token, hc]

/-- Witness for C10: one unexpired user without a URN, one unexpired user
record without a stored access token. -/
theorem c10_missing_urn_or_token_witness :
    (create_linkedin_post ⟨"k"⟩ 10 ⟨200, "", some "p", ""⟩
        ⟨1, some "u", none, some ⟨"k", "tok"⟩, some 100, [], [], some 0, some 0⟩
        "hello" []).result = .error (.http 400 "Missing LinkedIn URN") ∧
    (create_linkedin_post ⟨"k"⟩ 10 ⟨200, "", some "p", ""⟩
        ⟨2, some "u2", some "urn:li:person:u2", none, some 100, [], [], some 0, some 0⟩
        "hello" []).result = .error (.http 401 "Missing access token") :=
  ⟨((c10_missing_urn_or_token ⟨"k"⟩ 10 ⟨200, "", some "p", ""⟩
      ⟨1, some "u", none, some ⟨"k", "tok"⟩, some 100, [], [], some 0, some 0⟩
      "hello" []).1 ⟨100, rfl, by decide⟩ ⟨⟨"k", "tok"⟩, rfl, rfl⟩ (by decide)).1,
   ((c10_missing_urn_or_token ⟨"k"⟩ 10 ⟨200, "", some "p", ""⟩
      ⟨2, some "u2", some "urn:li:person:u2", none, some 100, [], [], some 0, some 0⟩
      "hello" []).2 ⟨100, rfl, by decide⟩ rfl).1⟩

/-- C6: for a publish call that passes the credential guards, a downstream
error status yields a failure carrying that status and body with no history
append; a success returns the downstream payload verbatim and appends exactly
one post record when the response carries a post id (via the one
`update_one`/`$push` on the matching user document), none otherwise. -/
theorem c6_publish_append (fern : Fernet) (now : Nat) (resp : PublishResp)
    (user : UserDoc) (text : String) (users : List UserDoc) (c : Cipher) (t : Nat)
    (htok : user.auth_access_token = some c) (hkey : c.key = fern.key)
    (hexp : user.auth_expires_at = some t) (hlt : now < t)
    (hurn : truthy user.linkedin_urn = true) :
    (resp.status_code ≥ 400 →
      (create_linkedin_post fern now resp user text users).result =
        .error (.http resp.status_code resp.text) ∧
      (create_linkedin_post fern now resp user text users).users = users) ∧
    (resp.status_code < 400 →
      (create_linkedin_post fern now resp user text users).result = .ok resp ∧
      (truthy resp.body_id = true →
        (create_linkedin_post fern now resp user text users).users =
          updateFirst (fun d => d.oid == user.oid)
            (fun d => { d with posts := d.posts ++ [⟨resp.body_id.getD "", text, now⟩] })
            users) ∧
      (truthy resp.body_id = false →
        (create_linkedin_post fern now resp user text users).users = users)) := by
  have hexpired : is_token_expired now user = false := by
    simp [is_token_expired, hexp]
    omega
  constructor
  · intro hstatus
    simp [create_linkedin_post, hexpired, get_access_token, htok, Fernet.decrypt,
      hkey, hurn, hstatus]
  · intro hstatus
    have hstatus' : ¬ resp.status_code ≥ 400 := by omega
    refine ⟨?_, ?_, ?_⟩
    · by_cases hid : truthy resp.body_id <;>
        simp [create_linkedin_post, hexpired, get_access_token, htok, Fernet.decrypt,
          hkey, hurn, hstatus', hid]
    · intro hid
      simp [create_linkedin_post, hexpired, get_access_token, htok, Fernet.decrypt,
        hkey, hurn, hstatus', hid]
    · intro hid
      simp [create_linkedin_post, hexpired, get_access_token, htok, Fernet.decrypt,
        hkey, hurn, hstatus', hid]

/-- Witness for C6: a failing downstream response (500) on one user and a
successful one (201, post id "p1") on another. -/
theorem c6_publish_append_witness :
    (create_linkedin_post ⟨"k"⟩ 10 ⟨500, "boom", none, ""⟩
        ⟨1, some "u", some "urn:li:person:u", some ⟨"k", "tok"⟩, some 100,
         [], [], some 0, some 0⟩ "hello"
        [⟨1, some "u", some "urn:li:person:u", some ⟨"k", "tok"⟩, some 100,
          [], [], some 0, some 0⟩]).result = .error (.http 500 "boom") ∧
    (create_linkedin_post ⟨"k"⟩ 10 ⟨201, "", some "p1", "payload"⟩
        ⟨1, some "u", some "urn:li:person:u", some ⟨"k", "tok"⟩, some 100,
         [], [], some 0, some 0⟩ "hello"
        [⟨1, some "u", some "urn:li:person:u", some ⟨"k", "tok"⟩, some 100,
          [], [], some 0, some 0⟩]).users =
      updateFirst (fun d => d.oid == (1 : Nat))
        (fun d => { d with posts := d.posts ++ [⟨"p1", "hello", 10⟩] })
        [⟨1, some "u", some "urn:li:person:u", some ⟨"k", "tok"⟩, some 100,
          [], [], some 0, some 0⟩] :=
  ⟨((c6_publish_append ⟨"k"⟩ 10 ⟨500, "boom", none, ""⟩
      ⟨1, some "u", some "urn:li:person:u", some ⟨"k", "tok"⟩, some 100,
       [], [], some 0, some 0⟩ "hello"
      [⟨1, some "u", some "urn:li:person:u", some ⟨"k", "tok"⟩, some 100,
        [], [], some 0, some 0⟩] ⟨"k", "tok"⟩ 100 rfl rfl rfl (by decide)
      (by decide)).1 (by decide)).1,
   (((c6_publish_append ⟨"k"⟩ 10 ⟨201, "", some "p1", "payload"⟩
      ⟨1, some "u", some "urn:li:person:u", some ⟨"k", "tok"⟩, some 100,
       [], [], some 0, some 0⟩ "hello"
      [⟨1, some "u", some "urn:li:person:u", some ⟨"k", "tok"⟩, some 100,
        [], [], some 0, some 0⟩] ⟨"k", "tok"⟩ 100 rfl rfl rfl (by decide)
      (by decide)).2 (by decide)).2.1 (by decide))⟩

/-- C7 counterexample: publishing with empty text does NOT fail `BadRequest`:
with a valid credential and URN the downstream call is performed with the
empty text, succeeds, and even appends a post record — refuting "fails with
BadRequest before any downstream call and without any store mutation". -/
theorem c7_counterexample :
    (create_linkedin_post ⟨"k"⟩ 10 ⟨201, "", some "p1", "payload"⟩
        ⟨1, some "u1", some "urn:li:person:u1", some ⟨"k", "tok"⟩, some 100,
         [], [], some 0, some 0⟩ ""
        [⟨1, some "u1", some "urn:li:person:u1", some ⟨"k", "tok"⟩, some 100,
          [], [], some 0, some 0⟩]).calls =
      [ExtCall.publish "urn:li:person:u1" "" "tok"] ∧
    (create_linkedin_post ⟨"k"⟩ 10 ⟨201, "", some "p1", "payload"⟩
        ⟨1, some "u1", some "urn:li:person:u1", some ⟨"k", "tok"⟩, some 100,
         [], [], some 0, some 0⟩ ""
        [⟨1, some "u1", some "urn:li:person:u1", some ⟨"k", "tok"⟩, some 100,
          [], [], some 0, some 0⟩]).result = .ok ⟨201, "", some "p1", "payload"⟩ ∧
    (create_linkedin_post ⟨"k"⟩ 10 ⟨201, "", some "p1", "payload"⟩
        ⟨1, some "u1", some "urn:li:person:u1", some ⟨"k", "tok"⟩, some 100,
         [], [], some 0, some 0⟩ ""
        [⟨1, some "u1", some "urn:li:person:u1", some ⟨"k", "tok"⟩, some 100,
          [], [], some 0, some 0⟩]).users ≠
      [⟨1, some "u1", some "urn:li:person:u1", some ⟨"k", "tok"⟩, some 100,
        [], [], some 0, some 0⟩] :=
  ⟨rfl, rfl, by decide⟩

/-- C7 (amended): the publish path applies no validation to `text` at all —
an empty text is forwarded to the downstream publish call exactly like any
other text (the only pre-downstream checks are token expiry, token presence
and URN presence), and the call can succeed. -/
theorem c7_no_text_validation (fern : Fernet) (now : Nat) (resp : PublishResp)
    (user : UserDoc) (users : List UserDoc) (c : Cipher) (t : Nat)
    (htok : user.auth_access_token = some c) (hkey : c.key = fern.key)
    (hexp : user.auth_expires_at = some t) (hlt : now < t)
    (hurn : truthy user.linkedin_urn = true) :
    (create_linkedin_post fern now resp user "" users).calls =
      [ExtCall.publish (user.linkedin_urn.getD "") "" c.plain] ∧
    (resp.status_code < 400 →
      (create_linkedin_post fern now resp user "" users).result = .ok resp) := by
  have hexpired : is_token_expired now user = false := by
    simp [is_token_expired, hexp]
    omega
  constructor
  · by_cases hstatus : resp.status_code ≥ 400 <;>
      by_cases hid : truthy resp.body_id <;>
      simp [create_linkedin_post, hexpired, get_access_token, htok, Fernet.decrypt,
        hkey, hurn, hstatus, hid]
  · intro hstatus
    have hstatus' : ¬ resp.status_code ≥ 400 := by omega
    by_cases hid : truthy resp.body_id <;>
      simp [create_linkedin_post, hexpired, get_access_token, htok, Fernet.decrypt,
        hkey, hurn, hstatus', hid]

/-- Witness for the amended C7: empty text reaches the downstream call and
succeeds for a valid user. -/
theorem c7_no_text_validation_witness :
    (create_linkedin_post ⟨"k"⟩ 10 ⟨201, "", some "p1", "payload"⟩
        ⟨1, some "u1", some "urn:li:person:u1", some ⟨"k", "tok"⟩, some 100,
         [], [], some 0, some 0⟩ "" []).calls =
      [ExtCall.publish "urn:li:person:u1" "" "tok"] :=
  (c7_no_text_validation ⟨"k"⟩ 10 ⟨201, "", some "p1", "payload"⟩
    ⟨1, some "u1", some "urn:li:person:u1", some ⟨"k", "tok"⟩, some 100,
     [], [], some 0, some 0⟩ [] ⟨"k", "tok"⟩ 100 rfl rfl rfl (by decide)
    (by decide)).1

/-- C4: a PKCE entry is created with `expires_at = now + 600` seconds
(10 minutes), and a callback consuming it after that absolute expiry deletes
the entry and fails with the 400 expired-state error, with no downstream call
and no user-store write — even if the entry was never otherwise accessed. -/
theorem c4_ttl_enforcement (fern : Fernet) (env : CallbackEnv)
    (freshOid oid2 T tLate : Nat) (S V code : String) (users : List UserDoc)
    (hS : S ≠ "") (hcode : code ≠ "") (hlate : T + 600 < tLate) :
    store_pkce_state T freshOid S V [] = [⟨freshOid, S, V, T, T + 600⟩] ∧
    (linkedin_callback fern tLate env oid2 ⟨some code, some S, none, none⟩
        (store_pkce_state T freshOid S V []) users).result =
      .error (.http 400 "PKCE state expired. Please start the OAuth flow again.") ∧
    (linkedin_callback fern tLate env oid2 ⟨some code, some S, none, none⟩
        (store_pkce_state T freshOid S V []) users).pkce = [] ∧
    (linkedin_callback fern tLate env oid2 ⟨some code, some S, none, none⟩
        (store_pkce_state T freshOid S V []) users).users = users ∧
    (linkedin_callback fern tLate env oid2 ⟨some code, some S, none, none⟩
        (store_pkce_state T freshOid S V []) users).calls = [] := by
  refine ⟨by simp [store_pkce_state], ?_, ?_, ?_, ?_⟩ <;>
    simp [store_pkce_state, linkedin_callback, truthy, hS, hcode, pkceConsume,
      List.find?, hlate, deleteById]

/-- Witness for C4: entry created at `T = 0`, consumed at `tLate = 660`
(11 minutes). -/
theorem c4_ttl_enforcement_witness :
    (linkedin_callback ⟨"k"⟩ 660 ⟨200, "", "tok", 3600, 200, "", "sub"⟩ 9
        ⟨some "c", some "s", none, none⟩ (store_pkce_state 0 1 "s" "v" []) []).result =
      .error (.http 400 "PKCE state expired. Please start the OAuth flow again.") ∧
    (linkedin_callback ⟨"k"⟩ 660 ⟨200, "", "tok", 3600, 200, "", "sub"⟩ 9
        ⟨some "c", some "s", none, none⟩ (store_pkce_state 0 1 "s" "v" []) []).pkce = [] :=
  ⟨(c4_ttl_enforcement ⟨"k"⟩ ⟨200, "", "tok", 3600, 200, "", "sub"⟩ 1 9 0 660
      "s" "v" "c" [] (by decide) (by decide) (by decide)).2.1,
   (c4_ttl_enforcement ⟨"k"⟩ ⟨200, "", "tok", 3600, 200, "", "sub"⟩ 1 9 0 660
      "s" "v" "c" [] (by decide) (by decide) (by decide)).2.2.1⟩

/-- C2 (violated by the code): the consume phase issues a `find_one` and then
a separate `delete_one`, so two callbacks racing on the same state can
interleave find/find/delete/delete and BOTH observe the `code_verifier` —
whereas a serial schedule lets only the first one succeed. The read-and-delete
is not atomic. -/
theorem c2_race_both_consume :
    runRace 0 "s" [false, true, false, true]
        ⟨[⟨1, "s", "v", 0, 600⟩], .ready, .ready⟩ =
      ⟨[], .finished (some "v"), .finished (some "v")⟩ ∧
    runRace 0 "s" [false, false, true, true]
        ⟨[⟨1, "s", "v", 0, 600⟩], .ready, .ready⟩ =
      ⟨[], .finished (some "v"), .finished none⟩ := by
  constructor <;> rfl

/-- C9 counterexample: a callback whose `error` query parameter is present
but equal to `""` is NOT rejected with the provider-error failure and is NOT
side-effect free: the handler falls through (`if error:` is a truthiness
test), consumes the PKCE entry for the given state, and performs the
downstream token-exchange call. -/
theorem c9_counterexample :
    (linkedin_callback ⟨"k"⟩ 0 ⟨500, "boom", "", 0, 500, "", ""⟩ 7
        ⟨some "c", some "s", some "", none⟩ [⟨1, "s", "v", 0, 600⟩] []).pkce = [] ∧
    (linkedin_callback ⟨"k"⟩ 0 ⟨500, "boom", "", 0, 500, "", ""⟩ 7
        ⟨some "c", some "s", some "", none⟩ [⟨1, "s", "v", 0, 600⟩] []).calls =
      [ExtCall.tokenExchange "c" "v"] ∧
    (linkedin_callback ⟨"k"⟩ 0 ⟨500, "boom", "", 0, 500, "", ""⟩ 7
        ⟨some "c", some "s", some "", none⟩ [⟨1, "s", "v", 0, 600⟩] []).result =
      .error (.http 400 "boom") :=
  ⟨rfl, rfl, rfl⟩

/-- C9 (amended): a callback with a present, NON-EMPTY `error` parameter
fails 400 with the provider description and has no side effects (pkce store,
users store and downstream traffic untouched); an empty-string `error` value
is treated as absent. Otherwise a missing-or-empty `code`, then `state`,
fails 400 before any correlation-store or downstream access. -/
theorem c9_error_then_missing_params (fern : Fernet) (now : Nat) (env : CallbackEnv)
    (freshOid : Nat) (p : CallbackParams) (pkce : List PkceRecord)
    (users : List UserDoc) :
    (∀ e, p.error = some e → e ≠ "" →
      (linkedin_callback fern now env freshOid p pkce users).result =
        .error (.http 400 ("LinkedIn OAuth error: " ++ e ++ " - " ++
          pyStr p.error_description)) ∧
      (linkedin_callback fern now env freshOid p pkce users).pkce = pkce ∧
      (linkedin_callback fern now env freshOid p pkce users).users = users ∧
      (linkedin_callback fern now env freshOid p pkce users).calls = []) ∧
    (truthy p.error = false → truthy p.code = false →
      (linkedin_callback fern now env freshOid p pkce users).result =
        .error (.http 400 "Missing authorization code") ∧
      (linkedin_callback fern now env freshOid p pkce users).pkce = pkce ∧
      (linkedin_callback fern now env freshOid p pkce users).users = users ∧
      (linkedin_callback fern now env freshOid p pkce users).calls = []) ∧
    (truthy p.error = false → truthy p.code = true → truthy p.state = false →
      (linkedin_callback fern now env freshOid p pkce users).result =
        .error (.http 400 "Missing state parameter") ∧
      (linkedin_callback fern now env freshOid p pkce users).pkce = pkce ∧
      (linkedin_callback fern now env freshOid p pkce users).users = users ∧
      (linkedin_callback fern now env freshOid p pkce users).calls = []) := by
  refine ⟨?_, ?_, ?_⟩
  · intro e he hne
    have htr : truthy (some e) = true := by simp [truthy, hne]
    simp [linkedin_callback, he, htr, pyStr]
  · intro he hc
    simp [linkedin_callback, he, hc]
  · intro he hc hs
    simp [linkedin_callback, he, hc, hs]

/-- Witness for the amended C9: a denied-consent callback
(`error = "access_denied"`) and a callback missing its `code`. -/
theorem c9_error_then_missing_params_witness :
    (linkedin_callback ⟨"k"⟩ 0 ⟨200, "", "tok", 3600, 200, "", "sub"⟩ 7
        ⟨some "c", some "s", some "access_denied", some "user denied"⟩
        [⟨1, "s", "v", 0, 600⟩] []).result =
      .error (.http 400 ("LinkedIn OAuth error: " ++ "access_denied" ++ " - " ++
        pyStr (some "user denied"))) ∧
    (linkedin_callback ⟨"k"⟩ 0 ⟨200, "", "tok", 3600, 200, "", "sub"⟩ 7
        ⟨some "c", some "s", some "access_denied", some "user denied"⟩
        [⟨1, "s", "v", 0, 600⟩] []).pkce = [⟨1, "s", "v", 0, 600⟩] ∧
    (linkedin_callback ⟨"k"⟩ 0 ⟨200, "", "tok", 3600, 200, "", "sub"⟩ 7
        ⟨none, some "s", none, none⟩ [⟨1, "s", "v", 0, 600⟩] []).result =
      .error (.http 400 "Missing authorization code") :=
  ⟨((c9_error_then_missing_params ⟨"k"⟩ 0 ⟨200, "", "tok", 3600, 200, "", "sub"⟩ 7
      ⟨some "c", some "s", some "access_denied", some "user denied"⟩
      [⟨1, "s", "v", 0, 600⟩] []).1 "access_denied" rfl (by decide)).1,
   ((c9_error_then_missing_params ⟨"k"⟩ 0 ⟨200, "", "tok", 3600, 200, "", "sub"⟩ 7
      ⟨some "c", some "s", some "access_denied", some "user denied"⟩
      [⟨1, "s", "v", 0, 600⟩] []).1 "access_denied" rfl (by decide)).2.1,
   ((c9_error_then_missing_params ⟨"k"⟩ 0 ⟨200, "", "tok", 3600, 200, "", "sub"⟩ 7
      ⟨none, some "s", none, none⟩ [⟨1, "s", "v", 0, 600⟩] []).2.1 rfl rfl).1⟩

/-- Deleting a document cannot make a state key appear. -/
theorem hasState_deleteById (S : String) (oid : Nat) (store : List PkceRecord)
    (h : hasState S store = false) : hasState S (deleteById oid store) = false := by
  rw [hasState, List.any_eq_false] at h ⊢
  intro x hx
  exact h x ((List.eraseP_sublist store).subset hx)

/-- The collection left by the consume phase is the original one or the
original one minus one document. -/
theorem pkceConsume_snd (now : Nat) (S : String) (store : List PkceRecord) :
    (pkceConsume now S store).2 = store ∨
    ∃ r, store.find? (fun x => x.state == S) = some r ∧
         (pkceConsume now S store).2 = deleteById r.oid store := by
  cases h : store.find? (fun x => x.state == S) with
  | none => left; simp [pkceConsume, h]
  | some r =>
    right
    refine ⟨r, rfl, ?_⟩
    by_cases hexp : now > r.expires_at <;> simp [pkceConsume, h, hexp]

/-- The consume phase never introduces a state key. -/
theorem hasState_pkceConsume (now : Nat) (S S' : String) (store : List PkceRecord)
    (h : hasState S store = false) :
    hasState S (pkceConsume now S' store).2 = false := by
  rcases pkceConsume_snd now S' store with h2 | ⟨r, _, h2⟩ <;> rw [h2]
  · exact h
  · exact hasState_deleteById S r.oid store h

/-- A callback that reaches the PKCE lookup leaves the `pkce_states`
collection exactly as the consume phase leaves it. -/
theorem callback_pkce_of_reaches (fern : Fernet) (now : Nat) (env : CallbackEnv)
    (oid : Nat) (p : CallbackParams) (pkce : List PkceRecord) (users : List UserDoc)
    (S : String) (hp : reachesLookup p S) :
    (linkedin_callback fern now env oid p pkce users).pkce = (pkceConsume now S pkce).2 := by
  obtain ⟨he, hc, hs, hne⟩ := hp
  have hst : truthy p.state = true := by rw [hs]; simp [truthy, hne]
  have hgd : p.state.getD "" = S := by rw [hs]; rfl
  simp only [linkedin_callback, he, hc, hst, hgd, Bool.false_eq_true, if_false,
    Bool.true_eq_false, if_neg, ite_false]
  rcases hcon : pkceConsume now S pkce with ⟨o, st⟩
  cases o with
  | notFound => simp [hcon]
  | expired => simp [hcon]
  | ok v =>
    by_cases ht : env.tokenStatus ≠ 200 <;> by_cases hpr : env.profileStatus ≠ 200 <;>
      simp [hcon, ht, hpr]

/-- No callback invocation ever adds an entry to `pkce_states`: absence of a
state key is preserved by every callback, whatever its parameters. -/
theorem callback_preserves_noState (fern : Fernet) (now : Nat) (env : CallbackEnv)
    (oid : Nat) (p : CallbackParams) (pkce : List PkceRecord) (users : List UserDoc)
    (S : String) (h : hasState S pkce = false) :
    hasState S (linkedin_callback fern now env oid p pkce users).pkce = false := by
  by_cases he : truthy p.error
  · simp [linkedin_callback, he, h]
  · by_cases hc : truthy p.code = false
    · simp [linkedin_callback, he, hc, h]
    · by_cases hst : truthy p.state = false
      · simp [linkedin_callback, he, hc, hst, h]
      · have hst2 := hasState_pkceConsume now S (p.state.getD "") pkce h
        simp only [linkedin_callback, he, hc, hst, Bool.false_eq_true, if_false, ite_false]
        rcases hcon : pkceConsume now (p.state.getD "") pkce with ⟨o, st⟩
        rw [hcon] at hst2
        cases o with
        | notFound => simpa using hst2
        | expired => simpa using hst2
        | ok v =>
          by_cases ht : env.tokenStatus ≠ 200 <;> by_cases hpr : env.profileStatus ≠ 200 <;>
            simpa [ht, hpr] using hst2

/-- A callback reaching the lookup for a state key absent from the collection
fails with the 400 not-found error and has no side effects. -/
theorem callback_notFound_of_noState (fern : Fernet) (now : Nat) (env : CallbackEnv)
    (oid : Nat) (p : CallbackParams) (pkce : List PkceRecord) (users : List UserDoc)
    (S : String) (h : hasState S pkce = false) (hp : reachesLookup p S) :
    linkedin_callback fern now env oid p pkce users =
      ⟨.error (.http 400 "PKCE state not found or expired. Please start the OAuth flow again."),
       pkce, users, []⟩ := by
  obtain ⟨he, hc, hs, hne⟩ := hp
  have hst : truthy (some S) = true := by simp [truthy, hne]
  have hfind : pkce.find? (fun r => r.state == S) = none := by
    rw [List.find?_eq_none]
    intro x hx
    rw [hasState, List.any_eq_false] at h
    exact h x hx
  simp [linkedin_callback, he, hc, hst, hs, pkceConsume, hfind]

/-- Replay chains: once the state key is gone from `pkce_states`, every later
callback carrying it (and reaching the lookup) fails with the 400 not-found
error, across any sequence of interleaved callback invocations. -/
theorem runCallbacks_replay_fails (fern : Fernet) (S : String) :
    ∀ (cs : List CbInvocation) (pkce : List PkceRecord) (users : List UserDoc),
      hasState S pkce = false →
      ∀ pr ∈ runCallbacks fern cs pkce users, reachesLookup pr.1.params S →
        pr.2.result = .error (.http 400
          "PKCE state not found or expired. Please start the OAuth flow again.") := by
  intro cs
  induction cs with
  | nil =>
    intro pkce users _ pr hpr
    simp [runCallbacks] at hpr
  | cons c rest ih =>
    intro pkce users h pr hpr hreach
    simp only [runCallbacks, List.mem_cons] at hpr
    rcases hpr with rfl | hmem
    · rw [callback_notFound_of_noState fern c.now c.env c.freshOid c.params pkce users S h hreach]
    · exact ih _ _ (callback_preserves_noState fern c.now c.env c.freshOid c.params
        pkce users S h) pr hmem hreach

/-- Consuming a state that keys at most one entry (in a collection with
distinct `_id`s) removes every entry for that state. -/
theorem consume_deletes (now : Nat) (S : String) :
    ∀ (store : List PkceRecord), store.Pairwise (fun a b => a.oid ≠ b.oid) →
      store.countP (fun r => r.state == S) ≤ 1 →
      hasState S (pkceConsume now S store).2 = false := by
  intro store
  induction store with
  | nil => intro _ _; simp [pkceConsume, hasState]
  | cons r rest ih =>
    intro hn hc
    by_cases hr : (r.state == S) = true
    · have hfind : (r :: rest).find? (fun x => x.state == S) = some r :=
        List.find?_cons_of_pos _ hr
      have hzero : rest.countP (fun x => x.state == S) = 0 := by
        rw [List.countP_cons] at hc
        simp only [hr, if_true] at hc
        omega
      have hrest : hasState S rest = false := by
        rw [hasState, List.any_eq_false]
        intro x hx
        exact (List.countP_eq_zero.mp hzero) x hx
      have hdel : deleteById r.oid (r :: rest) = rest := by
        simp [deleteById]
      have hsnd : (pkceConsume now S (r :: rest)).2 = rest := by
        by_cases hexp : now > r.expires_at <;> simp [pkceConsume, hfind, hexp, hdel]
      rw [hsnd]
      exact hrest
    · have hfind : (r :: rest).find? (fun x => x.state == S) =
          rest.find? (fun x => x.state == S) :=
        List.find?_cons_of_neg _ hr
      have hcrest : rest.countP (fun x => x.state == S) ≤ 1 := by
        rw [List.countP_cons] at hc
        omega
      have hnrest := (List.pairwise_cons.mp hn).2
      cases hf : rest.find? (fun x => x.state == S) with
      | none =>
        have hcon : (pkceConsume now S (r :: rest)).2 = r :: rest := by
          simp [pkceConsume, hfind, hf]
        rw [hcon, hasState, List.any_eq_false]
        intro x hx
        rcases List.mem_cons.mp hx with rfl | hx'
        · exact hr
        · exact (List.find?_eq_none.mp hf) x hx'
      | some r' =>
        have hmem : r' ∈ rest := List.mem_of_find?_eq_some hf
        have hoid : r.oid ≠ r'.oid := (List.pairwise_cons.mp hn).1 r' hmem
        have hbeq : (r.oid == r'.oid) = false := by simpa using hoid
        have hdel : deleteById r'.oid (r :: rest) = r :: deleteById r'.oid rest := by
          simp [deleteById, List.eraseP_cons, hbeq]
        have hsnd : (pkceConsume now S (r :: rest)).2 = deleteById r'.oid (r :: rest) := by
          by_cases hexp : now > r'.expires_at <;> simp [pkceConsume, hfind, hf, hexp]
        have hsndrest : (pkceConsume now S rest).2 = deleteById r'.oid rest := by
          by_cases hexp : now > r'.expires_at <;> simp [pkceConsume, hf, hexp]
        have ihrest := ih hnrest hcrest
        rw [hsnd, hdel, hasState, List.any_eq_false]
        intro x hx
        rcases List.mem_cons.mp hx with rfl | hx'
        · exact hr
        · rw [hsndrest, hasState, List.any_eq_false] at ihrest
          exact ihrest x hx'

/-- C1: once a callback has consumed (or expiry-deleted) the correlation
entry of a state `S` — the collection holding at most one entry for `S`, with
distinct `_id`s — no entry for `S` remains, and every subsequent callback
invocation carrying state `S` (past the parameter checks), in any sequence of
further callbacks, fails with the 400 invalid-or-expired-state error. -/
theorem c1_consumed_state_never_valid (fern : Fernet) (pkce0 : List PkceRecord)
    (users0 : List UserDoc) (S : String) (p : CallbackParams) (now : Nat)
    (env : CallbackEnv) (oid : Nat)
    (hn : pkce0.Pairwise (fun a b => a.oid ≠ b.oid))
    (hcnt : pkce0.countP (fun r => r.state == S) ≤ 1)
    (hp : reachesLookup p S) :
    hasState S (linkedin_callback fern now env oid p pkce0 users0).pkce = false ∧
    ∀ (cs : List CbInvocation) (pr : CbInvocation × CallbackOutcome),
      pr ∈ runCallbacks fern cs (linkedin_callback fern now env oid p pkce0 users0).pkce
             (linkedin_callback fern now env oid p pkce0 users0).users →
      reachesLookup pr.1.params S →
      pr.2.result = .error (.http 400
        "PKCE state not found or expired. Please start the OAuth flow again.") := by
  have hdel : hasState S (linkedin_callback fern now env oid p pkce0 users0).pkce = false := by
    rw [callback_pkce_of_reaches fern now env oid p pkce0 users0 S hp]
    exact consume_deletes now S pkce0 hn hcnt
  exact ⟨hdel, fun cs pr hpr hre =>
    runCallbacks_replay_fails fern S cs _ _ hdel pr hpr hre⟩

/-- Witness for C1: the entry for state "s" is consumed by a first callback;
a replay of the same state then fails with the 400 not-found error. -/
theorem c1_consumed_state_never_valid_witness :
    ((⟨5, ⟨500, "", "", 0, 500, "", ""⟩, 9, ⟨some "c2", some "s", none, none⟩⟩,
        linkedin_callback ⟨"k"⟩ 5 ⟨500, "", "", 0, 500, "", ""⟩ 9
          ⟨some "c2", some "s", none, none⟩
          (linkedin_callback ⟨"k"⟩ 0 ⟨500, "", "", 0, 500, "", ""⟩ 7
            ⟨some "c", some "s", none, none⟩ [⟨1, "s", "v", 0, 600⟩] []).pkce
          (linkedin_callback ⟨"k"⟩ 0 ⟨500, "", "", 0, 500, "", ""⟩ 7
            ⟨some "c", some "s", none, none⟩ [⟨1, "s", "v", 0, 600⟩] []).users) :
      CbInvocation × CallbackOutcome).2.result =
    .error (.http 400 "PKCE state not found or expired. Please start the OAuth flow again.") :=
  (c1_consumed_state_never_valid ⟨"k"⟩ [⟨1, "s", "v", 0, 600⟩] [] "s"
    ⟨some "c", some "s", none, none⟩ 0 ⟨500, "", "", 0, 500, "", ""⟩ 7
    (by simp) (by decide) (by decide)).2
    [⟨5, ⟨500, "", "", 0, 500, "", ""⟩, 9, ⟨some "c2", some "s", none, none⟩⟩]
    _ (List.Mem.head _) (by decide)

/-- C5: running the callback success path twice for the same provider user id
(two different valid codes), with a successful publish in between, leaves
exactly one user document: its credential (`auth`), URN and `updated_at` come
from the second exchange, while `posts`, `drafts` and `created_at` from
before are preserved unchanged. -/
theorem c5_upsert_preserves_history (fern : Fernet)
    (sub tok1 tok2 cA cB S1 S2 V1 V2 pid ptext prest txt1 txt2 ptxt1 ptxt2 : String)
    (t0a t1 tm t0b t2 e1 e2 : Nat)
    (hS1 : S1 ≠ "") (hcA : cA ≠ "") (hS2 : S2 ≠ "") (hcB : cB ≠ "") (hAB : cA ≠ cB)
    (h1 : t1 ≤ t0a + 600) (h2 : t2 ≤ t0b + 600)
    (htm : tm < t1 + e1) (hpid : pid ≠ "") :
    (linkedin_callback fern t1 ⟨200, txt1, tok1, e1, 200, ptxt1, sub⟩ 10
        ⟨some cA, some S1, none, none⟩ [⟨1, S1, V1, t0a, t0a + 600⟩] []).users =
      [⟨10, some sub, some ("urn:li:person:" ++ sub), some ⟨fern.key, tok1⟩,
        some (t1 + e1), [], [], some t1, some t1⟩] ∧
    (manual_post fern tm ⟨201, "", some pid, prest⟩ sub ptext
        (linkedin_callback fern t1 ⟨200, txt1, tok1, e1, 200, ptxt1, sub⟩ 10
          ⟨some cA, some S1, none, none⟩ [⟨1, S1, V1, t0a, t0a + 600⟩] []).users).users =
      [⟨10, some sub, some ("urn:li:person:" ++ sub), some ⟨fern.key, tok1⟩,
        some (t1 + e1), [], [⟨pid, ptext, tm⟩], some t1, some t1⟩] ∧
    (linkedin_callback fern t2 ⟨200, txt2, tok2, e2, 200, ptxt2, sub⟩ 11
        ⟨some cB, some S2, none, none⟩ [⟨2, S2, V2, t0b, t0b + 600⟩]
        (manual_post fern tm ⟨201, "", some pid, prest⟩ sub ptext
          (linkedin_callback fern t1 ⟨200, txt1, tok1, e1, 200, ptxt1, sub⟩ 10
            ⟨some cA, some S1, none, none⟩ [⟨1, S1, V1, t0a, t0a + 600⟩] []).users).users).users =
      [⟨10, some sub, some ("urn:li:person:" ++ sub), some ⟨fern.key, tok2⟩,
        some (t2 + e2), [], [⟨pid, ptext, tm⟩], some t1, some t2⟩] ∧
    (linkedin_callback fern t2 ⟨200, txt2, tok2, e2, 200, ptxt2, sub⟩ 11
        ⟨some cB, some S2, none, none⟩ [⟨2, S2, V2, t0b, t0b + 600⟩]
        (manual_post fern tm ⟨201, "", some pid, prest⟩ sub ptext
          (linkedin_callback fern t1 ⟨200, txt1, tok1, e1, 200, ptxt1, sub⟩ 10
            ⟨some cA, some S1, none, none⟩ [⟨1, S1, V1, t0a, t0a + 600⟩] []).users).users).result =
      .ok ⟨sub, "urn:li:person:" ++ sub, e2⟩ := by
  have hx1 : ¬ (t1 > t0a + 600) := by omega
  have hx2 : ¬ (t2 > t0b + 600) := by omega
  have hurn : (("urn:li:person:" ++ sub) == "") = false := by
    simpa using urn_ne_empty sub
  have hA : (linkedin_callback fern t1 ⟨200, txt1, tok1, e1, 200, ptxt1, sub⟩ 10
      ⟨some cA, some S1, none, none⟩ [⟨1, S1, V1, t0a, t0a + 600⟩] []).users =
      [⟨10, some sub, some ("urn:li:person:" ++ sub), some ⟨fern.key, tok1⟩,
        some (t1 + e1), [], [], some t1, some t1⟩] := by
    simp [linkedin_callback, truthy, hcA, hS1, pkceConsume, List.find?, deleteById,
      hx1, upsertUser, Fernet.encrypt]
  have hM : (manual_post fern tm ⟨201, "", some pid, prest⟩ sub ptext
      (linkedin_callback fern t1 ⟨200, txt1, tok1, e1, 200, ptxt1, sub⟩ 10
        ⟨some cA, some S1, none, none⟩ [⟨1, S1, V1, t0a, t0a + 600⟩] []).users).users =
      [⟨10, some sub, some ("urn:li:person:" ++ sub), some ⟨fern.key, tok1⟩,
        some (t1 + e1), [], [⟨pid, ptext, tm⟩], some t1, some t1⟩] := by
    rw [hA]
    have hexp : ¬ (tm ≥ t1 + e1) := by omega
    simp [manual_post, List.find?, create_linkedin_post, is_token_expired, hexp,
      get_access_token, Fernet.decrypt, truthy, hurn, hpid, updateFirst,
      urn_ne_empty sub]
  have hB : (linkedin_callback fern t2 ⟨200, txt2, tok2, e2, 200, ptxt2, sub⟩ 11
      ⟨some cB, some S2, none, none⟩ [⟨2, S2, V2, t0b, t0b + 600⟩]
      [(⟨10, some sub, some ("urn:li:person:" ++ sub), some ⟨fern.key, tok1⟩,
        some (t1 + e1), [], [⟨pid, ptext, tm⟩], some t1, some t1⟩ : UserDoc)]).users =
      [⟨10, some sub, some ("urn:li:person:" ++ sub), some ⟨fern.key, tok2⟩,
        some (t2 + e2), [], [⟨pid, ptext, tm⟩], some t1, some t2⟩] := by
    simp [linkedin_callback, truthy, hcB, hS2, pkceConsume, List.find?, deleteById,
      hx2, upsertUser, Fernet.encrypt, updateFirst]
  have hR : (linkedin_callback fern t2 ⟨200, txt2, tok2, e2, 200, ptxt2, sub⟩ 11
      ⟨some cB, some S2, none, none⟩ [⟨2, S2, V2, t0b, t0b + 600⟩]
      [(⟨10, some sub, some ("urn:li:person:" ++ sub), some ⟨fern.key, tok1⟩,
        some (t1 + e1), [], [⟨pid, ptext, tm⟩], some t1, some t1⟩ : UserDoc)]).result =
      .ok ⟨sub, "urn:li:person:" ++ sub, e2⟩ := by
    simp [linkedin_callback, truthy, hcB, hS2, pkceConsume, List.find?, deleteById, hx2]
  refine ⟨hA, hM, ?_, ?_⟩
  · rw [hM]
    exact hB
  · rw [hM]
    exact hR

/-- Witness for C5 at concrete values. -/
theorem c5_upsert_preserves_history_witness :
    (linkedin_callback ⟨"k"⟩ 20 ⟨200, "", "tb", 200, 200, "", "42"⟩ 11
        ⟨some "cb", some "s2", none, none⟩ [⟨2, "s2", "v2", 0, 600⟩]
        (manual_post ⟨"k"⟩ 10 ⟨201, "", some "p", ""⟩ "42" "hi"
          (linkedin_callback ⟨"k"⟩ 5 ⟨200, "", "ta", 100, 200, "", "42"⟩ 10
            ⟨some "ca", some "s1", none, none⟩ [⟨1, "s1", "v1", 0, 600⟩] []).users).users).users =
      [⟨10, some "42", some ("urn:li:person:" ++ "42"), some ⟨"k", "tb"⟩,
        some 220, [], [⟨"p", "hi", 10⟩], some 5, some 20⟩] :=
  (c5_upsert_preserves_history ⟨"k"⟩ "42" "ta" "tb" "ca" "cb" "s1" "s2" "v1" "v2"
    "p" "hi" "" "" "" "" "" 0 5 10 0 20 100 200
    (by decide) (by decide) (by decide) (by decide) (by decide)
    (by omega) (by omega) (by omega) (by decide)).2.2.1

end LinkedinBackend
